import Mathlib

/-!
Verification of the SAML session-cookie codec and reconstruction subsystem
of the security-dashboards plugin.

The development shallowly embeds the SAML authentication type
(src/server/auth/types/saml/saml_auth.ts): the session-cookie data model,
the validity check, the unauthenticated-request handler, cookie creation at
login, and the request-time reconstruction of the authorization header from
the overflow slot cookies.

Truthiness: the source is TypeScript, and several checks rely on JavaScript
truthiness (an empty string, the number 0 and undefined are falsy; any
object, including an empty Buffer, is truthy).  Optional fields are
embedded as Option values and the truthiness tests are made explicit.

Collaborators that live outside the provided sources (the compression
utilities, the cookie splitter, the clear-old-cookie helper, the Node
escape function and the page-request classifier) are modelled from the
specification; each such definition carries a doc comment saying so.
-/

set_option autoImplicit false

namespace SamlAuth

/-- A byte sequence, each element intended to lie below 256. -/
abbrev Bytes := List Nat

/-- Error kinds of the codec pipeline: a compressor decode failure, or a
corrupt overflow-fragment sequence (a middle slot missing while a later
slot is present). -/
inductive CodecError where
  | decodeError
  | corruptFragmentSequence
  deriving DecidableEq, Repr

/-! Compressor.  The compression utilities (deflateValue and inflateValue,
imported from the utils/compression module) are not part of the provided
sources, so they are modelled from the spec: a deterministic lossless byte
codec whose decoder fails with a decode error on malformed input.  The
model is a run-length code with byte-sized run counts. -/

/-- Modelled from the spec: one run of the run-length encoder.
Emits the pending run (count, byte) and continues; runs are capped at 255
so every emitted value fits in a byte. -/
def deflateRun (b count : Nat) : Bytes → Bytes
  | [] => [count, b]
  | c :: rest =>
    if c = b ∧ count < 255 then deflateRun b (count + 1) rest
    else count :: b :: deflateRun c 1 rest

/-- Modelled from the spec: deterministic lossless compression of a byte
sequence (run-length encoding with byte-sized counts). -/
def deflateValue : Bytes → Bytes
  | [] => []
  | b :: rest => deflateRun b 1 rest

/-- Modelled from the spec: decompression; fails with a decode error on
malformed input (odd-length data or a zero run count) instead of silently
returning garbage. -/
def inflateValue : Bytes → Except CodecError Bytes
  | [] => .ok []
  | [_] => .error .decodeError
  | count :: b :: rest =>
    if count = 0 then .error .decodeError
    else
      match inflateValue rest with
      | .ok tail => .ok (List.replicate count b ++ tail)
      | .error e => .error e

/-! Cookie Splitter / Joiner.  The cookie splitter module is not part of the
provided sources; the joiner is modelled from the spec: concatenate the
fragments present in slot order, tolerating absent slots only at the tail;
a gap in the middle (an absent slot followed by a present one) signals a
corrupt fragment sequence. -/

/-- Modelled from the spec: join an ordered sequence of optional slot
fragments.  Present fragments are concatenated in slot order; absence is
tolerated only at the tail, and a middle gap yields the corrupt-fragment
error. -/
def joinFragments : List (Option String) → Except CodecError String
  | [] => .ok ""
  | some s :: rest =>
    match joinFragments rest with
    | .ok tail => .ok (s ++ tail)
    | .error e => .error e
  | none :: rest =>
    if rest.all Option.isNone then .ok "" else .error .corruptFragmentSequence

/-- The concatenation, in slot order, of the fragments that are present. -/
def concatPresent (frags : List (Option String)) : String :=
  (frags.filterMap id).foldr (fun a b => a ++ b) ""

/-! Base64 decoding.  The reconstruction path decodes the joined cookie
text with Buffer.from(text, base64), which is lenient: characters outside
the base64 alphabet are skipped and a trailing group shorter than four
characters contributes its complete bytes only.  Modelled accordingly. -/

/-- Value of one base64 alphabet character (A-Z a-z 0-9 + /), none for any
other character. -/
def b64CharVal (c : Char) : Option Nat :=
  let n := c.toNat
  if 65 ≤ n ∧ n ≤ 90 then some (n - 65)
  else if 97 ≤ n ∧ n ≤ 122 then some (n - 97 + 26)
  else if 48 ≤ n ∧ n ≤ 57 then some (n - 48 + 52)
  else if n = 43 then some 62
  else if n = 47 then some 63
  else none

/-- Decode a sequence of 6-bit values in groups of four into bytes; a
trailing group of two or three values yields one or two bytes, a lone
trailing value is dropped (lenient, as Buffer.from with base64). -/
def decodeQuads : List Nat → Bytes
  | a :: b :: c :: d :: rest =>
    (a * 4 + b / 16) :: ((b % 16) * 16 + c / 4) :: ((c % 4) * 64 + d) ::
      decodeQuads rest
  | [a, b] => [a * 4 + b / 16]
  | [a, b, c] => [a * 4 + b / 16, (b % 16) * 16 + c / 4]
  | _ => []

/-- Modelled from the spec: lenient base64 decoding of a string to bytes,
as performed by Buffer.from(value, base64). -/
def base64Decode (s : String) : Bytes :=
  decodeQuads (s.data.filterMap b64CharVal)

/-- The code points of a string, as bytes (the model keeps credentials in
the single-byte range). -/
def strToBytes (s : String) : Bytes :=
  s.data.map Char.toNat

/-- The string spelled by a byte sequence. -/
def bytesToStr (l : Bytes) : String :=
  String.mk (l.map Char.ofNat)

/-! Session cookie data model.  The SecuritySessionCookie interface is
declared outside the provided sources; its shape is taken from the fields
this module reads and writes: username, credentials (with the inline
authHeaderValue and the overflow authHeaderValueCompressed), authType and
expiryTime, every field optional. -/

/-- The SAML tag stored in the authType field (AuthType.SAML). -/
def AuthType.SAML : String := "saml"

/-- The name of the authorization header (AUTH_HEADER_NAME). -/
def authHeaderName : String := "authorization"

/-- The credentials member of a session cookie: either the inline header
value or the compressed overflow marker, both optional. -/
structure SamlCredentials where
  authHeaderValue : Option String := none
  authHeaderValueCompressed : Option Bytes := none
  deriving DecidableEq, Repr

/-- The session cookie record, fields as read and written by the SAML
authentication type. -/
structure SecuritySessionCookie where
  username : Option String := none
  credentials : Option SamlCredentials := none
  authType : Option String := none
  expiryTime : Option Nat := none
  deriving DecidableEq, Repr

/-- The authentication info obtained at login; only the user_name field is
read by getCookie. -/
structure AuthInfo where
  user_name : Option String := none
  deriving DecidableEq, Repr

/-- JavaScript truthiness of an optional string: present and non-empty. -/
def truthyStr : Option String → Bool
  | none => false
  | some s => !s.isEmpty

/-- JavaScript truthiness of an optional number: present and non-zero. -/
def truthyNat : Option Nat → Bool
  | none => false
  | some n => decide (n ≠ 0)

/-! Request model.  Of the framework request the module reads the header
map (the authorization header at login), the cookies present on the
request (the overflow slots) and the URL path name. -/

/-- The part of the inbound request this module reads. -/
structure Request where
  headers : List (String × String) := []
  cookies : List (String × String) := []
  urlPathname : Option String := none
  deriving DecidableEq, Repr

/-- Look up a request header by name. -/
def getHeader (request : Request) (name : String) : Option String :=
  (request.headers.find? (fun kv => kv.1 == name)).map (fun kv => kv.2)

/-- Look up a cookie present on the request by name. -/
def getCookieVal (request : Request) (name : String) : Option String :=
  (request.cookies.find? (fun kv => kv.1 == name)).map (fun kv => kv.2)

/-- The configuration surface the SAML authentication type consumes. -/
structure SamlConfig where
  serverBasePath : String := ""
  cookieName : String := "security_authentication"
  clearOldCookieValue : String := ""
  sessionTtl : Nat := 0
  deriving DecidableEq, Repr

/-- The base name of the two overflow slot cookies: the configured cookie
name with the saml suffix (constructor, line 61). -/
def extraCookieName (cfg : SamlConfig) : String :=
  cfg.cookieName ++ "_saml"

/-- Modelled from the spec: clearOldVersionCookieValue (from the session
security-cookie module, not under the provided sources) produces the
set-cookie instruction that clears a stale cookie of a prior incompatible
session-cookie version; carried as an abstract configured value. -/
def clearOldVersionCookieValue (cfg : SamlConfig) : String :=
  cfg.clearOldCookieValue

/-- isValidCookie (lines 128-135): the conjunction of the four truthiness
checks the source performs, embedded as a total Bool function. -/
def isValidCookie (cookie : SecuritySessionCookie) : Bool :=
  decide (cookie.authType = some AuthType.SAML) &&
  truthyStr cookie.username &&
  truthyNat cookie.expiryTime &&
  (truthyStr (cookie.credentials.bind SamlCredentials.authHeaderValue) ||
    (cookie.credentials.bind SamlCredentials.authHeaderValueCompressed).isSome)

/-- getCookie (lines 114-125): the session cookie created at login.  The
wall clock (Date.now) is passed as the parameter now; the credential is
always deflated into the compressed field. -/
def getCookie (cfg : SamlConfig) (request : Request) (authInfo : AuthInfo)
    (now : Nat) : SecuritySessionCookie :=
  { username := authInfo.user_name,
    credentials := some
      { authHeaderValue := none,
        authHeaderValueCompressed :=
          some (deflateValue (strToBytes ((getHeader request authHeaderName).getD ""))) },
    authType := some AuthType.SAML,
    expiryTime := some (now + cfg.sessionTtl) }

/-- unsplitCookiesIntoValue (from the cookie splitter module, not under the
provided sources), modelled from the spec: join the two overflow slot
cookies (K = 2, the two slots registered in the constructor) in slot
order. -/
def unsplitCookiesIntoValue (request : Request) (cookieName : String) :
    Except CodecError String :=
  joinFragments
    [getCookieVal request (cookieName ++ "_1"),
     getCookieVal request (cookieName ++ "_2")]

/-- The reconstruction pipeline of buildAuthHeaderFromCookie (lines
157-159): join the overflow slots, base64-decode, decompress, and spell
the resulting bytes as the header string. -/
def reconstructCredential (cfg : SamlConfig) (request : Request) :
    Except CodecError String :=
  match unsplitCookiesIntoValue request (extraCookieName cfg) with
  | .error e => .error e
  | .ok full =>
    match inflateValue (base64Decode full) with
    | .error e => .error e
    | .ok bytes => .ok (bytesToStr bytes)

/-- The outbound header map built for the backend request.  The
authorization entry distinguishes an absent key from a key present with an
undefined value: none means the key is absent, some v means the key is
present and carries v (v = none embeds the JavaScript undefined). -/
structure AuthHeaders where
  authorization : Option (Option String) := none
  deriving DecidableEq, Repr

/-- The observable outcome of buildAuthHeaderFromCookie: the returned
header map together with the error handed to the logger, if any. -/
structure BuildResult where
  headers : AuthHeaders := {}
  loggedError : Option CodecError := none
  deriving DecidableEq, Repr

/-- buildAuthHeaderFromCookie (lines 149-170): when the compressed
credential marker is set (a Buffer is truthy even when empty, hence
isSome), reconstruct from the request slots, catching any failure by
logging it and leaving the header map empty; otherwise copy the inline
credential value into the authorization entry directly. -/
def buildAuthHeaderFromCookie (cfg : SamlConfig)
    (cookie : SecuritySessionCookie) (request : Request) : BuildResult :=
  if (cookie.credentials.bind SamlCredentials.authHeaderValueCompressed).isSome then
    match reconstructCredential cfg request with
    | .ok value =>
      { headers := { authorization := some (some value) }, loggedError := none }
    | .error e =>
      { headers := { authorization := none }, loggedError := some e }
  else
    { headers :=
        { authorization := some (cookie.credentials.bind SamlCredentials.authHeaderValue) },
      loggedError := none }

/-! Redirect path of the unauthenticated-request handler. -/

/-- Characters the Node escape function leaves unescaped: ASCII letters,
digits, and the code points of - _ . ! ~ * apostrophe ( ). -/
def isUnreservedChar (c : Char) : Bool :=
  (decide (65 ≤ c.toNat) && decide (c.toNat ≤ 90)) ||
  (decide (97 ≤ c.toNat) && decide (c.toNat ≤ 122)) ||
  (decide (48 ≤ c.toNat) && decide (c.toNat ≤ 57)) ||
  [45, 95, 46, 33, 126, 42, 39, 40, 41].contains c.toNat

/-- The character of one upper-case hexadecimal digit. -/
def hexDigitChar (n : Nat) : Char :=
  Char.ofNat (if n < 10 then 48 + n else 55 + n)

/-- Modelled from the spec: percent-escape one character (single-byte code
points, as the paths at hand are ASCII). -/
def escapeChar (c : Char) : String :=
  if isUnreservedChar c then String.singleton c
  else
    "%" ++ String.singleton (hexDigitChar (c.toNat / 16 % 16)) ++
      String.singleton (hexDigitChar (c.toNat % 16))

/-- Modelled from the spec: the Node querystring escape of a string. -/
def escape (s : String) : String :=
  String.join (s.data.map escapeChar)

/-- generateNextUrl (lines 78-83): the escaped concatenation of the server
base path and the request path name, the latter defaulting to the landing
path when falsy. -/
def generateNextUrl (cfg : SamlConfig) (request : Request) : String :=
  escape (cfg.serverBasePath ++
    (if truthyStr request.urlPathname then request.urlPathname.getD ""
     else "/app/opensearch-dashboards"))

/-- Outcome of the unauthenticated-request handler: a redirect carrying a
location and a set-cookie instruction, or an unauthorized response. -/
inductive Response where
  | redirected (location : String) (setCookie : String)
  | unauthorized
  deriving DecidableEq, Repr

/-- redirectSAMlCapture (lines 86-93): redirect to the capture endpoint
with the next URL as query parameter, attaching the clear-old-cookie
instruction. -/
def redirectSAMlCapture (cfg : SamlConfig) (request : Request) : Response :=
  Response.redirected
    (cfg.serverBasePath ++ "/auth/saml/captureUrlFragment?nextUrl=" ++
      generateNextUrl cfg request)
    (clearOldVersionCookieValue cfg)

/-- handleUnauthedRequest (lines 137-147).  The page classification is
provided by an external collaborator (the base authentication type, not
under the provided sources) and is passed as the parameter isPage. -/
def handleUnauthedRequest (cfg : SamlConfig) (isPage : Request → Bool)
    (request : Request) : Response :=
  if isPage request then redirectSAMlCapture cfg request
  else Response.unauthorized

/-! Concrete fixtures used by the counterexamples. -/

/-- A cookie whose fields satisfy the literal conditions of the validity
claim (SAML tag, non-empty username, expiry set, inline credential
populated) but whose expiry value is 0, hence falsy. -/
def c2CounterCookie : SecuritySessionCookie :=
  { username := some "admin",
    credentials := some
      { authHeaderValue := some "Basic YWRtaW4=", authHeaderValueCompressed := none },
    authType := some AuthType.SAML,
    expiryTime := some 0 }

/-- A structurally complete cookie (compressed credential present) whose
expiry value 0 lies in the past of any positive clock. -/
def c4CounterCookie : SecuritySessionCookie :=
  { username := some "user",
    credentials := some
      { authHeaderValue := none, authHeaderValueCompressed := some [120, 121] },
    authType := some AuthType.SAML,
    expiryTime := some 0 }

/-- A 50-character credential, the small-credential scenario. -/
def c3Credential : String :=
  "Bearer AAAAAAAAAAAAAAAAAAAAAAAAAAAAAAAAAAAAAAAAAAA"

/-- A login request carrying the 50-character authorization header. -/
def c3Request : Request :=
  { headers := [("authorization", c3Credential)] }

/-! Helper theorems. -/

theorem inflateValue_deflateRun (rest : Bytes) :
    ∀ b count : Nat, 1 ≤ count → count ≤ 255 →
      inflateValue (deflateRun b count rest) =
        .ok (List.replicate count b ++ rest) := by
  induction rest with
  | nil =>
    intro b count h1 _
    have hc : count ≠ 0 := by omega
    simp [deflateRun, inflateValue, hc]
  | cons c rest ih =>
    intro b count h1 h2
    by_cases hc : c = b ∧ count < 255
    · rw [deflateRun, if_pos hc]
      rw [ih b (count + 1) (by omega) (by omega)]
      obtain ⟨hcb, _⟩ := hc
      subst hcb
      simp [List.replicate_succ' (n := count)]
    · rw [deflateRun, if_neg hc]
      have hcount : count ≠ 0 := by omega
      rw [inflateValue, if_neg hcount]
      rw [ih c 1 (by omega) (by omega)]
      simp

theorem getD_shift (rest : List (Option String)) (x : Option String)
    (h : ∀ i j : Nat, i ≤ j → (x :: rest).getD i none = none →
      (x :: rest).getD j none = none) :
    ∀ i j : Nat, i ≤ j → rest.getD i none = none → rest.getD j none = none := by
  intro i j hij hi
  have := h (i + 1) (j + 1) (by omega) (by simpa using hi)
  simpa using this

theorem all_none_of_getD (rest : List (Option String))
    (h : ∀ n : Nat, rest.getD n none = none) :
    ∀ x ∈ rest, x = none := by
  intro x hx
  obtain ⟨n, hn, hget⟩ := List.mem_iff_getElem.mp hx
  have := h n
  rw [List.getD_eq_getElem?_getD, List.getElem?_eq_getElem hn, hget] at this
  simpa using this

/-- Truthiness of an optional string, as a proposition. -/
theorem truthyStr_iff (o : Option String) :
    truthyStr o = true ↔ ∃ s, o = some s ∧ s ≠ "" := by
  cases o with
  | none => simp [truthyStr]
  | some s =>
    constructor
    · intro h
      refine ⟨s, rfl, ?_⟩
      intro he
      subst he
      exact absurd h (by decide)
    · rintro ⟨t, ht, hne⟩
      injection ht with ht
      subst ht
      have hf : s.isEmpty = false := by
        cases hq : s.isEmpty with
        | false => rfl
        | true => exact absurd ((String.isEmpty_iff s).mp (by rw [hq])) hne
      simp [truthyStr, hf]

/-- Truthiness of an optional number, as a proposition. -/
theorem truthyNat_iff (o : Option Nat) :
    truthyNat o = true ↔ ∃ n, o = some n ∧ n ≠ 0 := by
  cases o with
  | none => simp [truthyNat]
  | some n => simp [truthyNat]

/-! Claim theorems. -/

/-- C8: for every byte sequence B, including the empty sequence,
decompressing the result of compressing B yields B exactly; compression is
a pure Lean function, hence deterministic. -/
theorem C8_compress_roundtrip (B : Bytes) :
    inflateValue (deflateValue B) = .ok B := by
  cases B with
  | nil => rfl
  | cons b rest =>
    rw [deflateValue, inflateValue_deflateRun rest b 1 (by omega) (by omega)]
    simp

/-- C9: joining the slot fragments concatenates them in slot order and
tolerates absent slots exactly when the absence is only at the tail: when
every slot after an absent one is also absent the present fragments are
concatenated in order, while an absent slot followed by a present one
yields the corrupt-fragment-sequence error. -/
theorem C9_join_tail_tolerance (frags : List (Option String)) :
    ((∀ i j : Nat, i ≤ j → frags.getD i none = none →
        frags.getD j none = none) →
      joinFragments frags = .ok (concatPresent frags)) ∧
    ((∃ i j : Nat, i < j ∧ frags.getD i none = none ∧
        (frags.getD j none).isSome = true) →
      joinFragments frags = .error .corruptFragmentSequence) := by
  induction frags with
  | nil =>
    constructor
    · intro _; rfl
    · rintro ⟨i, j, _, _, hj⟩
      simp at hj
  | cons x rest ih =>
    constructor
    · intro h
      match x with
      | some s =>
        have hrest := ih.1 (getD_shift rest (some s) h)
        rw [joinFragments, hrest]
        simp [concatPresent]
      | none =>
        have hz : (none :: rest).getD 0 none = (none : Option String) := by simp
        have hall : ∀ n : Nat, rest.getD n none = none := by
          intro n
          have := h 0 (n + 1) (by omega) hz
          simpa using this
        have hnone := all_none_of_getD rest hall
        have hb : rest.all Option.isNone = true := by
          rw [List.all_eq_true]
          intro x hx
          rw [hnone x hx]
          rfl
        rw [joinFragments, if_pos hb]
        have hfm : rest.filterMap id = [] := by
          rw [List.filterMap_eq_nil_iff]
          intro a ha
          simpa using hnone a ha
        simp [concatPresent, hfm]
    · rintro ⟨i, j, hij, hi, hj⟩
      match x with
      | some s =>
        match i with
        | 0 => simp at hi
        | i + 1 =>
          match j with
          | 0 => omega
          | j + 1 =>
            have hrest := ih.2 ⟨i, j, by omega, by simpa using hi,
              by simpa using hj⟩
            rw [joinFragments, hrest]
      | none =>
        match j with
        | 0 => omega
        | j + 1 =>
          have hj2 : (rest.getD j none).isSome = true := by simpa using hj
          have hb : rest.all Option.isNone = false := by
            by_contra hcontra
            have hb2 : rest.all Option.isNone = true := by
              cases hq : rest.all Option.isNone with
              | true => rfl
              | false => exact absurd hq hcontra
            rw [List.all_eq_true] at hb2
            by_cases hlen : j < rest.length
            · have hmem : rest.getD j none ∈ rest := by
                rw [List.getD_eq_getElem?_getD, List.getElem?_eq_getElem hlen]
                exact List.getElem_mem hlen
              have := hb2 _ hmem
              rw [Option.isNone_iff_eq_none] at this
              rw [this] at hj2
              simp at hj2
            · have : rest.getD j none = none :=
                List.getD_eq_default _ _ (by omega)
              rw [this] at hj2
              simp at hj2
          rw [joinFragments, if_neg (by simp [hb])]

/-- Witness for C9: a tail-absent pair of fragments joins to their
concatenation, and a middle gap (slot 1 absent, slot 2 present) yields the
corrupt-fragment-sequence error. -/
theorem C9_join_tail_tolerance_witness :
    joinFragments [some "ab", none] = .ok "ab" ∧
    joinFragments [none, some "Zg"] = .error .corruptFragmentSequence := by
  constructor
  · have h := (C9_join_tail_tolerance [some "ab", none]).1
    have hmono : ∀ i j : Nat, i ≤ j →
        ([some "ab", none] : List (Option String)).getD i none = none →
        ([some "ab", none] : List (Option String)).getD j none = none := by
      intro i j hij hi
      match i with
      | 0 => simp at hi
      | 1 =>
        match j with
        | 0 => omega
        | 1 => simp
        | j + 2 => simp [List.getD]
      | i + 2 =>
        match j with
        | 0 => omega
        | 1 => omega
        | j + 2 => simp [List.getD]
    simpa [concatPresent] using h hmono
  · exact (C9_join_tail_tolerance [none, some "Zg"]).2
      ⟨0, 1, by omega, by simp, by simp⟩

/-- C1: when the compressed credential marker is set on the cookie and the
reconstruction of the credential from the request (join of the overflow
slots, base64 decode, decompress) fails for any reason, then
buildAuthHeaderFromCookie hands the error to the logger and returns the
empty header map; the embedding is a total function, so no exception
reaches the caller. -/
theorem C1_reconstruct_failure_fail_open (cfg : SamlConfig)
    (cookie : SecuritySessionCookie) (request : Request) (e : CodecError)
    (hcomp : (cookie.credentials.bind SamlCredentials.authHeaderValueCompressed).isSome = true)
    (hfail : reconstructCredential cfg request = .error e) :
    buildAuthHeaderFromCookie cfg cookie request =
      { headers := { authorization := none }, loggedError := some e } := by
  unfold buildAuthHeaderFromCookie
  rw [if_pos hcomp, hfail]

/-- Witness for C1: a request carrying only the second overflow slot (a
middle gap) makes reconstruction fail, and the handler returns the empty
header map with the corrupt-fragment error logged. -/
theorem C1_reconstruct_failure_fail_open_witness :
    buildAuthHeaderFromCookie
      { cookieName := "sec" }
      { credentials := some { authHeaderValueCompressed := some [1, 2] } }
      { cookies := [("sec_saml_2", "Zg")] } =
      { headers := { authorization := none },
        loggedError := some CodecError.corruptFragmentSequence } :=
  C1_reconstruct_failure_fail_open _ _ _ _ rfl rfl

/-- C2 counterexample: a cookie with the SAML tag, the non-empty username
admin, the expiry field set (to the value 0) and the inline credential
populated is rejected by isValidCookie, because the code tests the expiry
by truthiness and 0 is falsy, contradicting the claimed equivalence. -/
theorem C2_counterexample :
    c2CounterCookie.authType = some AuthType.SAML ∧
    c2CounterCookie.username = some "admin" ∧
    ("admin" : String) ≠ "" ∧
    c2CounterCookie.expiryTime.isSome = true ∧
    c2CounterCookie.credentials.bind SamlCredentials.authHeaderValue =
      some "Basic YWRtaW4=" ∧
    isValidCookie c2CounterCookie = false := by
  exact ⟨rfl, rfl, by decide, rfl, rfl, by decide⟩

/-- C2 amended: isValidCookie returns true if and only if the authType
equals the SAML tag, the username is non-empty, the expiryTime is set to a
non-zero timestamp, and the inline credential is non-empty or the
compressed credential is present; the function is total, hence never
throws.  (The amendment: the code tests the expiry field by truthiness, so
an expiry value of 0, though set, is rejected.) -/
theorem C2_isValidCookie_iff (cookie : SecuritySessionCookie) :
    isValidCookie cookie = true ↔
      (cookie.authType = some AuthType.SAML ∧
       (∃ u, cookie.username = some u ∧ u ≠ "") ∧
       (∃ t, cookie.expiryTime = some t ∧ t ≠ 0) ∧
       ((∃ v, cookie.credentials.bind SamlCredentials.authHeaderValue = some v ∧
           v ≠ "") ∨
        (cookie.credentials.bind SamlCredentials.authHeaderValueCompressed).isSome
          = true)) := by
  unfold isValidCookie
  rw [Bool.and_eq_true, Bool.and_eq_true, Bool.and_eq_true, Bool.or_eq_true]
  rw [truthyStr_iff, truthyNat_iff, truthyStr_iff, decide_eq_true_iff]
  rw [and_assoc, and_assoc]

/-- C3 counterexample: at a concrete 50-character login credential the
created cookie does not carry the credential inline and does carry the
compressed overflow representation, so a small credential is not stored
inline and the compressor is invoked. -/
theorem C3_counterexample :
    c3Credential.length = 50 ∧
    getHeader c3Request authHeaderName = some c3Credential ∧
    (getCookie {} c3Request {} 1000).credentials.bind
        SamlCredentials.authHeaderValue = none ∧
    ((getCookie {} c3Request {} 1000).credentials.bind
        SamlCredentials.authHeaderValueCompressed).isSome = true := by
  exact ⟨by decide, rfl, rfl, rfl⟩

/-- C3 amended: getCookie does not choose between inline and overflow
storage: every credential, a small 50-byte one included, is deflated and
stored in the compressed overflow field, and the inline field is never
populated at creation. -/
theorem C3_always_compressed (cfg : SamlConfig) (request : Request)
    (authInfo : AuthInfo) (now : Nat) (v : String)
    (h : getHeader request authHeaderName = some v) :
    (getCookie cfg request authInfo now).credentials =
      some { authHeaderValue := none,
             authHeaderValueCompressed := some (deflateValue (strToBytes v)) } := by
  unfold getCookie
  rw [h]
  exact rfl

/-- Witness for C3: a concrete small login credential is stored deflated in
the compressed field with the inline field unset. -/
theorem C3_always_compressed_witness :
    (getCookie {} { headers := [("authorization", "Basic YQ==")] } {} 7).credentials =
      some { authHeaderValue := none,
             authHeaderValueCompressed := some (deflateValue (strToBytes "Basic YQ==")) } :=
  C3_always_compressed {} _ {} 7 "Basic YQ==" rfl

/-- C4 counterexample: a cookie satisfying the structural conditions as
literally stated (SAML tag, non-empty username, expiry set, compressed
credential populated) whose expiry 0 lies before the current time is
nevertheless rejected, because the code tests the expiry field by
truthiness; so the claim as stated fails at the expiry value 0. -/
theorem C4_counterexample :
    c4CounterCookie.authType = some AuthType.SAML ∧
    c4CounterCookie.username = some "user" ∧
    ("user" : String) ≠ "" ∧
    c4CounterCookie.expiryTime = some 0 ∧
    (c4CounterCookie.credentials.bind
        SamlCredentials.authHeaderValueCompressed).isSome = true ∧
    (0 : Nat) < 1760140800000 ∧
    isValidCookie c4CounterCookie = false := by
  exact ⟨rfl, rfl, by decide, rfl, rfl, by decide, by decide⟩

/-- C4 amended: isValidCookie does not consult the wall clock: every cookie
passing the structural checks the code performs (SAML tag, non-empty
username, non-zero expiry value, a credential field populated) is accepted
for every current time, even one strictly past the expiry. -/
theorem C4_no_expiry_check (cookie : SecuritySessionCookie) (now t : Nat)
    (h1 : cookie.authType = some AuthType.SAML)
    (h2 : truthyStr cookie.username = true)
    (h3 : cookie.expiryTime = some t) (h4 : t ≠ 0) (_h5 : t < now)
    (h6 : truthyStr (cookie.credentials.bind SamlCredentials.authHeaderValue)
        = true ∨
      (cookie.credentials.bind SamlCredentials.authHeaderValueCompressed).isSome
        = true) :
    isValidCookie cookie = true := by
  unfold isValidCookie
  rw [h3]
  rcases h6 with h | h <;> simp [h1, h2, h, truthyNat, h4]

/-- Witness for C4: a concrete structurally valid cookie whose expiry 5
lies before the clock value 10 still passes the check. -/
theorem C4_no_expiry_check_witness :
    isValidCookie
      { username := some "user2",
        credentials := some { authHeaderValue := some "Basic eA==" },
        authType := some AuthType.SAML,
        expiryTime := some 5 } = true :=
  C4_no_expiry_check _ 10 5 rfl (by decide) rfl (by decide) (by decide)
    (Or.inl (by decide))

/-- C5: the unauthenticated-request handler has exactly two outcomes: for a
page request, a redirect to the capture endpoint under the base path whose
next URL embeds the escaped target (the request path or the landing-path
default) and whose set-cookie instruction clears the old-version cookie;
for any other request, the unauthorized response, with no redirect. -/
theorem C5_unauthed_two_outcomes (cfg : SamlConfig) (isPage : Request → Bool)
    (request : Request) :
    handleUnauthedRequest cfg isPage request =
      if isPage request then
        Response.redirected
          (cfg.serverBasePath ++ "/auth/saml/captureUrlFragment?nextUrl=" ++
            escape (cfg.serverBasePath ++
              (if truthyStr request.urlPathname then request.urlPathname.getD ""
               else "/app/opensearch-dashboards")))
          (clearOldVersionCookieValue cfg)
      else Response.unauthorized := rfl

/-- C6: for a request with a present non-empty path name the next URL is
the escape of the server base path concatenated with that path, and for a
request with no path name it defaults to the escape of the base path
concatenated with the landing path. -/
theorem C6_next_url (cfg : SamlConfig) (request : Request) :
    (∀ p, request.urlPathname = some p → p ≠ "" →
      generateNextUrl cfg request = escape (cfg.serverBasePath ++ p)) ∧
    (request.urlPathname = none →
      generateNextUrl cfg request =
        escape (cfg.serverBasePath ++ "/app/opensearch-dashboards")) := by
  constructor
  · intro p hp hne
    have ht : truthyStr (some p) = true := (truthyStr_iff _).mpr ⟨p, rfl, hne⟩
    simp [generateNextUrl, hp, ht]
  · intro hp
    simp [generateNextUrl, hp, truthyStr]

/-- Witness for C6: a concrete page path is escaped onto the base path, and
a request with no path falls back to the landing path. -/
theorem C6_next_url_witness :
    generateNextUrl { serverBasePath := "/base" }
        { urlPathname := some "/app/home" } =
      escape ("/base" ++ "/app/home") ∧
    generateNextUrl { serverBasePath := "/base" } {} =
      escape ("/base" ++ "/app/opensearch-dashboards") :=
  ⟨(C6_next_url _ _).1 "/app/home" rfl (by decide), (C6_next_url _ _).2 rfl⟩

/-- C7: when the compressed credential field is not set, the header map has
the single authorization entry carrying the inline credential value
directly, nothing is logged, and the result does not depend on the
request, so neither the joiner nor the decompressor is consulted. -/
theorem C7_inline_direct (cfg : SamlConfig) (cookie : SecuritySessionCookie)
    (request : Request)
    (h : cookie.credentials.bind SamlCredentials.authHeaderValueCompressed = none) :
    buildAuthHeaderFromCookie cfg cookie request =
      { headers :=
          { authorization :=
              some (cookie.credentials.bind SamlCredentials.authHeaderValue) },
        loggedError := none } ∧
    (∀ other : Request,
      buildAuthHeaderFromCookie cfg cookie other =
        buildAuthHeaderFromCookie cfg cookie request) := by
  have hb : (cookie.credentials.bind
      SamlCredentials.authHeaderValueCompressed).isSome = false := by
    rw [h]
    rfl
  constructor
  · simp [buildAuthHeaderFromCookie, hb]
  · intro other
    simp [buildAuthHeaderFromCookie, hb]

/-- Witness for C7: a cookie with only the inline credential produces the
single authorization entry with that value. -/
theorem C7_inline_direct_witness :
    buildAuthHeaderFromCookie {}
      { credentials := some { authHeaderValue := some "Basic dXNlcg==" } } {} =
      { headers := { authorization := some (some "Basic dXNlcg==") },
        loggedError := none } :=
  (C7_inline_direct {}
    { credentials := some { authHeaderValue := some "Basic dXNlcg==" } } {} rfl).1

/-- C10: a cookie freshly created by getCookie for a request carrying an
authorization header has the SAML tag, carries the deflated credential in
the compressed field with the inline field unset, and expires exactly at
the creation time plus the configured session TTL; whenever the login user
name is non-empty (the wall clock being positive), the fresh cookie passes
isValidCookie. -/
theorem C10_fresh_cookie_invariants (cfg : SamlConfig) (request : Request)
    (authInfo : AuthInfo) (now : Nat) (v : String)
    (hv : getHeader request authHeaderName = some v) (hnow : 0 < now) :
    (getCookie cfg request authInfo now).authType = some AuthType.SAML ∧
    (getCookie cfg request authInfo now).credentials.bind
        SamlCredentials.authHeaderValueCompressed =
      some (deflateValue (strToBytes v)) ∧
    (getCookie cfg request authInfo now).credentials.bind
        SamlCredentials.authHeaderValue = none ∧
    (getCookie cfg request authInfo now).expiryTime =
      some (now + cfg.sessionTtl) ∧
    (∀ u, authInfo.user_name = some u → u ≠ "" →
      isValidCookie (getCookie cfg request authInfo now) = true) := by
  refine ⟨rfl, ?_, rfl, rfl, ?_⟩
  · simp [getCookie, hv]
  · intro u hu hne
    have h1 : truthyStr (some u) = true := (truthyStr_iff _).mpr ⟨u, rfl, hne⟩
    have h2 : truthyNat (some (now + cfg.sessionTtl)) = true := by
      simp [truthyNat]
      omega
    simp [isValidCookie, getCookie, hu, h1, h2]

/-- Witness for C10: a fresh cookie created at clock 42 for a request with
a concrete authorization header and a non-empty user name passes the
validity check. -/
theorem C10_fresh_cookie_invariants_witness :
    isValidCookie (getCookie {}
      { headers := [("authorization", "Basic Yg==")] }
      { user_name := some "kibanauser" } 42) = true :=
  (C10_fresh_cookie_invariants {}
    { headers := [("authorization", "Basic Yg==")] }
    { user_name := some "kibanauser" } 42 "Basic Yg==" rfl (by decide)).2.2.2.2
    "kibanauser" rfl (by decide)

end SamlAuth
